import Mathlib

/-!
Verification development for `traiNNer/utils/color_util.py`.

The array backend (numpy) is embedded with exact rationals: a host image is a
list of pixels, each pixel the list of its channel samples.  The dtype tag is
carried explicitly because the source dispatches on it.  The torch backend is
embedded further below with an indexed tensor type.
-/

/-- Decidable equality for `Except` results, so concrete runs can be checked
with `decide`. -/
instance {ε α : Type} [DecidableEq ε] [DecidableEq α] : DecidableEq (Except ε α) := fun a b =>
  match a, b with
  | .ok x, .ok y =>
      if h : x = y then .isTrue (by rw [h]) else .isFalse (by intro hc; cases hc; exact h rfl)
  | .error x, .error y =>
      if h : x = y then .isTrue (by rw [h]) else .isFalse (by intro hc; cases hc; exact h rfl)
  | .ok _, .error _ => .isFalse (by intro hc; cases hc)
  | .error _, .ok _ => .isFalse (by intro hc; cases hc)

/-- Python exception values raised by the embedded functions. -/
inductive PyErr where
  | typeError (msg : String)
  | assertionError (msg : String)
  | notImplementedError (msg : String)
  | valueError (msg : String)
  | runtimeError (msg : String)
deriving DecidableEq, Repr

/-- The numpy dtypes the module dispatches on; `other` carries the printed
name of any further dtype, used in error messages. -/
inductive NpDType where
  | uint8
  | float32
  | other (name : String)
deriving DecidableEq, Repr

/-- Printed form of a dtype, as interpolated into the error messages. -/
def npDTypeName : NpDType → String
  | .uint8 => "uint8"
  | .float32 => "float32"
  | .other s => s

/-- A host-memory image: dtype tag plus pixel data (one channel list per
pixel position; a 1-D numpy result is embedded with singleton channel
lists). -/
structure NpImage where
  dtype : NpDType
  data : List (List ℚ)
deriving DecidableEq, Repr

/-- `np.round`: round half to even (banker's rounding), as numpy does. -/
def npRound (q : ℚ) : ℤ :=
  if q - ⌊q⌋ < 1 / 2 then ⌊q⌋
  else if 1 / 2 < q - ⌊q⌋ then ⌊q⌋ + 1
  else if ⌊q⌋ % 2 = 0 then ⌊q⌋ else ⌊q⌋ + 1

/-- `astype(np.uint8)` of an already-rounded value: wraparound conversion
modulo 256. -/
def astypeUint8 (q : ℚ) : ℚ :=
  ((npRound q).emod 256 : ℤ)

/-- Embeds `_convert_input_type_range` (color_util.py lines 176-202): cast to
float32, pass float32 through, divide uint8 data by 255, reject any other
dtype with a `TypeError` naming it. -/
def _convert_input_type_range (img : NpImage) : Except PyErr NpImage :=
  match img.dtype with
  | .float32 => .ok ⟨.float32, img.data⟩
  | .uint8 => .ok ⟨.float32, img.data.map (fun px => px.map (fun x => x / 255))⟩
  | .other s =>
      .error (.typeError
        ("The img type should be np.float32 or np.uint8, but got " ++ s))

/-- Embeds `_convert_output_type_range` (lines 205-234): reject any dst_type
other than uint8/float32 before touching the data; round (then wrap into
uint8) for the uint8 target; divide by 255 for the float32 target. -/
def _convert_output_type_range (rows : List (List ℚ)) (dstType : NpDType) :
    Except PyErr NpImage :=
  match dstType with
  | .other s =>
      .error (.typeError
        ("The dst_type should be np.float32 or np.uint8, but got " ++ s))
  | .uint8 => .ok ⟨.uint8, rows.map (fun px => px.map astypeUint8)⟩
  | .float32 => .ok ⟨.float32, rows.map (fun px => px.map (fun x => x / 255))⟩

/-- Dot product of two channel lists (`np.dot` of a pixel with a 3-vector). -/
def dotQ (xs vs : List ℚ) : ℚ :=
  (List.zipWith (· * ·) xs vs).sum

/-- Embeds `np.matmul(rows, mat)` for a stack of pixels against a small
matrix held as its list of rows: entry `(i, j)` is the dot product of pixel
`i` with column `j` of the matrix. -/
def npMatmul (rows : List (List ℚ)) (mat : List (List ℚ)) : List (List ℚ) :=
  rows.map (fun px =>
    (List.range (mat.headD []).length).map
      (fun j => dotQ px (mat.map (fun mrow => mrow.getD j 0))))

/-- The BT.601 forward matrix of `rgb2ycbcr` (lines 38-44). -/
def rgb2ycbcrMat : List (List ℚ) :=
  [[65.481, -37.797, 112.0],
   [128.553, -74.203, -93.786],
   [24.966, 112.0, -18.214]]

/-- The BT.601 forward matrix of `bgr2ycbcr` (lines 85-91). -/
def bgr2ycbcrMat : List (List ℚ) :=
  [[24.966, 112.0, -18.214],
   [128.553, -74.203, -93.786],
   [65.481, -37.797, 112.0]]

/-- The inverse matrix of `ycbcr2rgb` (lines 127-133). -/
def ycbcr2rgbMat : List (List ℚ) :=
  [[0.00456621, 0.00456621, 0.00456621],
   [0, -0.00153632, 0.00791071],
   [0.00625893, -0.00318811, 0]]

/-- The inverse matrix of `ycbcr2bgr` (lines 164-170). -/
def ycbcr2bgrMat : List (List ℚ) :=
  [[0.00456621, 0.00456621, 0.00456621],
   [0.00791071, -0.00153632, 0],
   [0, -0.00318811, 0.00625893]]

/-- The value bound to `out_img` in `rgb2ycbcr`/`bgr2ycbcr`: either a numpy
array (the `y_only` branch) or a plain Python list (the other branch, which
builds `[*np.matmul(...), 16, 128, 128]` — iterable unpacking of the matmul
rows followed by three scalars). -/
inductive NpObj where
  | ndarray (rows : List (List ℚ))
  | pylist (rowElems : List (List ℚ)) (scalarElems : List ℚ)

/-- Embeds `rgb2ycbcr` (lines 8-52).  The `y_only` branch computes
`np.dot(img, [65.481, 128.553, 24.966]) + 16.0`.  The other branch builds the
Python list `[*np.matmul(img, M), 16, 128, 128]`; the subsequent
`assert isinstance(out_img, np.ndarray)` then fails, which is embedded as an
`AssertionError` result. -/
def rgb2ycbcr (img : NpImage) (y_only : Bool := false) : Except PyErr NpImage := do
  let imgType := img.dtype
  let imgN ← _convert_input_type_range img
  let outImg : NpObj :=
    if y_only then
      .ndarray (imgN.data.map (fun px => [dotQ px [65.481, 128.553, 24.966] + 16.0]))
    else
      .pylist (npMatmul imgN.data rgb2ycbcrMat) [16, 128, 128]
  match outImg with
  | .ndarray rows => _convert_output_type_range rows imgType
  | .pylist _ _ => .error (.assertionError "")

/-- Embeds `bgr2ycbcr` (lines 55-99), the BGR variant of `rgb2ycbcr` with the
same list-instead-of-array construction in the non-`y_only` branch. -/
def bgr2ycbcr (img : NpImage) (y_only : Bool := false) : Except PyErr NpImage := do
  let imgType := img.dtype
  let imgN ← _convert_input_type_range img
  let outImg : NpObj :=
    if y_only then
      .ndarray (imgN.data.map (fun px => [dotQ px [24.966, 128.553, 65.481] + 16.0]))
    else
      .pylist (npMatmul imgN.data bgr2ycbcrMat) [16, 128, 128]
  match outImg with
  | .ndarray rows => _convert_output_type_range rows imgType
  | .pylist _ _ => .error (.assertionError "")

/-- Embeds `ycbcr2rgb` (lines 102-136): normalize, scale by 255, matrix
multiply, scale by 255 and add the bias row, denormalize. -/
def ycbcr2rgb (img : NpImage) : Except PyErr NpImage := do
  let imgType := img.dtype
  let imgN ← _convert_input_type_range img
  let scaled := imgN.data.map (fun px => px.map (fun x => x * 255))
  let out := (npMatmul scaled ycbcr2rgbMat).map
    (fun row => List.zipWith (fun x b => x * 255.0 + b) row [-222.921, 135.576, -276.836])
  _convert_output_type_range out imgType

/-- Embeds `ycbcr2bgr` (lines 139-173), the BGR variant of `ycbcr2rgb`. -/
def ycbcr2bgr (img : NpImage) : Except PyErr NpImage := do
  let imgType := img.dtype
  let imgN ← _convert_input_type_range img
  let scaled := imgN.data.map (fun px => px.map (fun x => x * 255))
  let out := (npMatmul scaled ycbcr2bgrMat).map
    (fun row => List.zipWith (fun x b => x * 255.0 + b) row [-276.836, 135.576, -222.921])
  _convert_output_type_range out imgType

/-!
Tensor backend.  A torch tensor is embedded as its shape together with a
total indexing function from multi-indices to scalars; elementwise kernels
become composition with the data function, and layout operations (permute,
slicing, concatenation, stacking) become index arithmetic.  The linear
YCbCr pipeline and the pixel-format dispatchers are instantiated at `ℚ`
(their arithmetic is exact); the gamma/Lab pipeline further below is
instantiated at `ℝ` because it takes real powers.
-/

/-- A batched tensor value: shape plus total indexing function (indices
outside the shape read arbitrary junk, which no embedded operation ever
exposes). -/
structure Tens (α : Type) where
  shape : List ℕ
  data : List ℕ → α

/-- Elementwise kernel application (`torch` broadcasting of a scalar op). -/
def Tens.map {α : Type} (t : Tens α) (f : α → α) : Tens α :=
  ⟨t.shape, fun idx => f (t.data idx)⟩

/-- Pointwise combination of two same-shaped tensors. -/
def Tens.map2 {α : Type} (t u : Tens α) (f : α → α → α) : Tens α :=
  ⟨t.shape, fun idx => f (t.data idx) (u.data idx)⟩

/-- `t.permute(0, 2, 3, 1)`: raises unless the tensor is 4-dimensional,
otherwise reorders axes NCHW → NHWC. -/
def Tens.permute0231 {α : Type} (t : Tens α) : Except PyErr (Tens α) :=
  if t.shape.length = 4 then
    .ok ⟨[t.shape.getD 0 0, t.shape.getD 2 0, t.shape.getD 3 0, t.shape.getD 1 0],
         fun idx => t.data [idx.getD 0 0, idx.getD 3 0, idx.getD 1 0, idx.getD 2 0]⟩
  else .error (.runtimeError "number of dims don't match in permute")

/-- `t.permute(0, 3, 1, 2)`: raises unless 4-dimensional, reorders
NHWC → NCHW. -/
def Tens.permute0312 {α : Type} (t : Tens α) : Except PyErr (Tens α) :=
  if t.shape.length = 4 then
    .ok ⟨[t.shape.getD 0 0, t.shape.getD 3 0, t.shape.getD 1 0, t.shape.getD 2 0],
         fun idx => t.data [idx.getD 0 0, idx.getD 2 0, idx.getD 3 0, idx.getD 1 0]⟩
  else .error (.runtimeError "number of dims don't match in permute")

/-- `torch.matmul(t, m)` against a small matrix (held as its list of rows)
acting on the last axis: the result entry at `idx ++ [j]` is the dot product
of the last-axis fiber of `t` at `idx` with column `j` of `m`. -/
def Tens.matLast {α : Type} [Field α] (t : Tens α) (m : List (List α)) : Tens α :=
  ⟨t.shape.dropLast ++ [(m.headD []).length],
   fun idx =>
     ((List.range m.length).map
       (fun k => t.data (idx.dropLast ++ [k]) * ((m.getD k []).getD (idx.getLastD 0) 0))).sum⟩

/-- Adding a bias vector viewed as `(1, C, 1, 1)`: broadcasts over all axes
except the channel axis (axis 1). -/
def Tens.addChanBias {α : Type} [Field α] (t : Tens α) (bias : List α) : Tens α :=
  ⟨t.shape, fun idx => t.data idx + bias.getD (idx.getD 1 0) 0⟩

/-- The channel slice `t[:, a:b, :, :]`. -/
def Tens.sliceCh {α : Type} (t : Tens α) (a b : ℕ) : Tens α :=
  ⟨t.shape.set 1 (b - a), fun idx => t.data (idx.set 1 (idx.getD 1 0 + a))⟩

/-- `torch.cat((r, g, b), dim=1)`. -/
def Tens.cat3Ch {α : Type} (r g b : Tens α) : Tens α :=
  ⟨r.shape.set 1 (r.shape.getD 1 0 + g.shape.getD 1 0 + b.shape.getD 1 0),
   fun idx =>
     let c := idx.getD 1 0
     if c < r.shape.getD 1 0 then r.data idx
     else if c < r.shape.getD 1 0 + g.shape.getD 1 0 then
       g.data (idx.set 1 (c - r.shape.getD 1 0))
     else b.data (idx.set 1 (c - r.shape.getD 1 0 - g.shape.getD 1 0))⟩

/-- The in-place channel-slice assignment `t[:, a:b, :, :] = src`, as the
value the mutated tensor holds afterwards. -/
def Tens.setCh {α : Type} (t : Tens α) (a b : ℕ) (src : Tens α) : Tens α :=
  ⟨t.shape,
   fun idx =>
     let c := idx.getD 1 0
     if a ≤ c ∧ c < b then src.data (idx.set 1 (c - a)) else t.data idx⟩

/-- Rational-valued tensors, used for the exact linear conversions. -/
abbrev Tq := Tens ℚ

/-- Embeds `rgb2ycbcr_pt` (lines 275-307): permute NCHW → NHWC, matrix
multiply on the channel axis (a single 3-vector when `y_only`), permute
back, add the bias (16 for `y_only`, else `[16, 128, 128]` viewed as
`(1, 3, 1, 1)`), and divide by 255. -/
def rgb2ycbcr_pt (img : Tq) (y_only : Bool := false) : Except PyErr Tq := do
  let outImg ←
    if y_only then do
      let p ← img.permute0231
      let m := p.matLast [[65.481], [128.553], [24.966]]
      let q ← m.permute0312
      pure (q.map (fun v => v + 16.0))
    else do
      let p ← img.permute0231
      let m := p.matLast [[65.481, -37.797, 112.0],
                          [128.553, -74.203, -93.786],
                          [24.966, 112.0, -18.214]]
      let q ← m.permute0312
      pure (q.addChanBias [16, 128, 128])
  pure (outImg.map (fun v => v / 255.0))

/-- Embeds `ycbcr2rgb_pt` (lines 310-324): scale by 255, slice the three
channels, apply the closed-form linear equations, concatenate, divide by
255. -/
def ycbcr2rgb_pt (img : Tq) : Tq :=
  let imgYcbcr := img.map (fun v => v * 255.0)
  let y := imgYcbcr.sliceCh 0 1
  let cb := imgYcbcr.sliceCh 1 2
  let cr := imgYcbcr.sliceCh 2 3
  let r := Tens.map2 (y.map (fun v => 1.164 * (v - 16))) (cr.map (fun v => 1.596 * (v - 128)))
    (· + ·)
  let g := Tens.map2
    (Tens.map2 (y.map (fun v => 1.164 * (v - 16))) (cb.map (fun v => 0.392 * (v - 128))) (· - ·))
    (cr.map (fun v => 0.813 * (v - 128))) (· - ·)
  let b := Tens.map2 (y.map (fun v => 1.164 * (v - 16))) (cb.map (fun v => 2.017 * (v - 128)))
    (· + ·)
  let rgb := Tens.cat3Ch r g b
  rgb.map (fun v => v / 255.0)

/-- Modelled from the spec: the pixel-format tag enumeration (`PixelFormat`
from `traiNNer/utils/types.py`, which is not among the provided sources) —
one of `rgb`, `gray`, `yuv444`, `y`, `uv`. -/
inductive PixelFormat where
  | rgb
  | gray
  | yuv444
  | y
  | uv
deriving DecidableEq, Repr

/-- A heap of tensor objects, used to make the in-place slice assignments of
the pixel-format dispatcher observable: addresses index into `cells`, and
every torch conversion allocates a fresh cell for its result. -/
structure PtStore where
  cells : List Tq

/-- Dereference an address (out-of-range addresses read an empty tensor). -/
def PtStore.read (s : PtStore) (a : ℕ) : Tq :=
  s.cells.getD a ⟨[], fun _ => 0⟩

/-- Allocate a fresh cell holding `t` and return its address. -/
def PtStore.alloc (s : PtStore) (t : Tq) : PtStore × ℕ :=
  (⟨s.cells ++ [t]⟩, s.cells.length)

/-- Overwrite the cell at `a` (the in-place slice assignment). -/
def PtStore.write (s : PtStore) (a : ℕ) (t : Tq) : PtStore :=
  ⟨s.cells.set a t⟩

/-- Embeds `rgb2pixelformat_pt` (lines 237-249) over the tensor heap:
`rgb` returns the input address unchanged, `yuv444` and `y` allocate the
converted tensor (for `y`, its luma slice), `gray` and `uv` raise
`NotImplementedError`. -/
def rgb2pixelformat_pt (s : PtStore) (img : ℕ) (pixel_format : PixelFormat) :
    Except PyErr (PtStore × ℕ) :=
  match pixel_format with
  | .rgb => .ok (s, img)
  | .gray => .error (.notImplementedError "")
  | .yuv444 => do
      let t ← rgb2ycbcr_pt (s.read img)
      .ok (s.alloc t)
  | .y => do
      let t ← rgb2ycbcr_pt (s.read img)
      .ok (s.alloc (t.sliceCh 0 1))
  | .uv => .error (.notImplementedError "")

/-- Embeds `pixelformat2rgb_pt` (lines 252-272) over the tensor heap.  For
`y` (resp. `uv`) with no reference image the assert fails with the
documented message; with a reference, the reference is converted to YCbCr
into a fresh cell, that fresh cell's luma (resp. chroma) slice is
overwritten in place with the input, and the cell is converted back to
RGB into another fresh cell. -/
def pixelformat2rgb_pt (s : PtStore) (img : ℕ) (img_ref_rgb : Option ℕ)
    (pixel_format : PixelFormat) : Except PyErr (PtStore × ℕ) :=
  match pixel_format with
  | .rgb => .ok (s, img)
  | .gray => .error (.notImplementedError "")
  | .yuv444 => .ok (s.alloc (ycbcr2rgb_pt (s.read img)))
  | .y =>
      match img_ref_rgb with
      | none => .error (.assertionError "gt is required for luma pixel format")
      | some r => do
          let yuv ← rgb2ycbcr_pt (s.read r)
          let (s1, a) := s.alloc yuv
          let s2 := s1.write a ((s1.read a).setCh 0 1 (s1.read img))
          .ok (s2.alloc (ycbcr2rgb_pt (s2.read a)))
  | .uv =>
      match img_ref_rgb with
      | none => .error (.assertionError "gt is required for chroma pixel format")
      | some r => do
          let yuv ← rgb2ycbcr_pt (s.read r)
          let (s1, a) := s.alloc yuv
          let s2 := s1.write a
            ((s1.read a).setCh 1 ((s1.read a).shape.getD 1 0) (s1.read img))
          .ok (s2.alloc (ycbcr2rgb_pt (s2.read a)))

/-- Insert an index component at position `n` (used to invert axis
selection). -/
def insertAt (n : ℕ) (a : ℕ) (l : List ℕ) : List ℕ :=
  l.take n ++ a :: l.drop n

/-- The axis-`(-3)` selection `t[..., k, :, :]`. -/
def Tens.sel3 {α : Type} (t : Tens α) (k : ℕ) : Tens α :=
  ⟨t.shape.eraseIdx (t.shape.length - 3),
   fun idx => t.data (insertAt (t.shape.length - 3) k idx)⟩

/-- `torch.stack([x, y, z], dim=-3)`: a new axis of size 3 three positions
from the end of the result. -/
def Tens.stack3m3 {α : Type} (x y z : Tens α) : Tens α :=
  ⟨insertAt (x.shape.length - 2) 3 x.shape,
   fun idx =>
     let k := idx.getD (x.shape.length - 2) 0
     let rest := idx.eraseIdx (x.shape.length - 2)
     if k = 0 then x.data rest else if k = 1 then y.data rest else z.data rest⟩

/-- `t @ w` for a vector `w` on the last axis: contraction of the last-axis
fiber with `w`. -/
def Tens.lastDot {α : Type} [Field α] (t : Tens α) (w : List α) : Tens α :=
  ⟨t.shape.dropLast,
   fun idx => ((List.range w.length).map (fun k => t.data (idx ++ [k]) * w.getD k 0)).sum⟩

/-- `torch.div(t, w[..., :, None, None])`: division broadcast with a
3-vector along the axis three positions from the end. -/
def Tens.divChan3 {α : Type} [Field α] (t : Tens α) (w : List α) : Tens α :=
  ⟨t.shape, fun idx => t.data idx / w.getD (idx.getD (t.shape.length - 3) 0) 1⟩

/-- `torch.where(c > thr, a, b)` pointwise. -/
def Tens.whereGt {α : Type} [LinearOrder α] (c : Tens α) (thr : α) (a b : Tens α) : Tens α :=
  ⟨a.shape, fun idx => if thr < c.data idx then a.data idx else b.data idx⟩

/-- Embeds `rgb_to_luma` (lines 327-349): shape precondition on the `(-3)`
axis (1 or 3 channels), permute NCHW → NHWC (raising for non-4-D input, as
`torch.permute` does), clamp to `[1e-12, 1]`, sRGB gamma decode, luminance
dot product when the input had 3 channels, the CIE `L*` piecewise map, and
a final division by 100 with clamping into `[0, 1]`.  Note the first
piecewise branch multiplies `out_img` by `out_img * (24389 / 27)`, exactly
as the source does. -/
noncomputable def rgb_to_luma (img : Tens ℝ) : Except PyErr (Tens ℝ) :=
  if img.shape.length < 3 ∨
      (img.shape.getD (img.shape.length - 3) 0 ≠ 3 ∧
        img.shape.getD (img.shape.length - 3) 0 ≠ 1) then
    .error (.valueError
      ("Input size must have a shape of (*, 3, H, W) or (*, 1, H, W). Got "
        ++ toString img.shape))
  else do
    let p ← img.permute0231
    let o1 := p.map (fun x => min (max x 1e-12) 1)
    let o2 := o1.map
      (fun x => if x ≤ 0.04045 then x / 12.92 else ((x + 0.055) / 1.055) ^ (2.4 : ℝ))
    let o3 :=
      if img.shape.getD (img.shape.length - 3) 0 = 3 then
        o2.lastDot [0.2126, 0.7152, 0.0722]
      else o2
    let o4 := o3.map
      (fun x =>
        if x ≤ (216 / 24389 : ℝ) then x * (x * (24389 / 27))
        else x ^ ((1 : ℝ) / 3) * 116 - 16)
    pure (o4.map (fun x => min (max (x / 100) 0) 1))

/-- Embeds `rgb_to_linear_rgb` (lines 352-376): shape precondition (exactly
3 channels on the `(-3)` axis), then the pointwise sRGB gamma decode. -/
noncomputable def rgb_to_linear_rgb (image : Tens ℝ) : Except PyErr (Tens ℝ) :=
  if image.shape.length < 3 ∨ image.shape.getD (image.shape.length - 3) 0 ≠ 3 then
    .error (.valueError
      ("Input size must have a shape of (*, 3, H, W).Got " ++ toString image.shape))
  else
    .ok (image.map
      (fun x => if 0.04045 < x then ((x + 0.055) / 1.055) ^ (2.4 : ℝ) else x / 12.92))

/-- Embeds `rgb_to_xyz` (lines 379-411): shape precondition, per-channel
linear combination with the CIE coefficients, stacked on axis `-3`. -/
noncomputable def rgb_to_xyz (image : Tens ℝ) : Except PyErr (Tens ℝ) :=
  if image.shape.length < 3 ∨ image.shape.getD (image.shape.length - 3) 0 ≠ 3 then
    .error (.valueError
      ("Input size must have a shape of (*, 3, H, W). Got " ++ toString image.shape))
  else
    let r := image.sel3 0
    let g := image.sel3 1
    let b := image.sel3 2
    let x := Tens.map2
      (Tens.map2 (r.map (fun v => 0.412453 * v)) (g.map (fun v => 0.357580 * v)) (· + ·))
      (b.map (fun v => 0.180423 * v)) (· + ·)
    let y := Tens.map2
      (Tens.map2 (r.map (fun v => 0.212671 * v)) (g.map (fun v => 0.715160 * v)) (· + ·))
      (b.map (fun v => 0.072169 * v)) (· + ·)
    let z := Tens.map2
      (Tens.map2 (r.map (fun v => 0.019334 * v)) (g.map (fun v => 0.119193 * v)) (· + ·))
      (b.map (fun v => 0.950227 * v)) (· + ·)
    .ok (Tens.stack3m3 x y z)

/-- Embeds `linear_rgb_to_lab_norm` (lines 414-463): XYZ conversion, D65
white-point normalization, the piecewise cube-root/affine transform, and the
normalized `L`, `a`, `b` channels stacked on axis `-3`. -/
noncomputable def linear_rgb_to_lab_norm (lin_rgb : Tens ℝ) : Except PyErr (Tens ℝ) :=
  if lin_rgb.shape.length < 3 ∨
      lin_rgb.shape.getD (lin_rgb.shape.length - 3) 0 ≠ 3 then
    .error (.valueError
      ("Input size must have a shape of (*, 3, H, W). Got " ++ toString lin_rgb.shape))
  else do
    let xyz_im ← rgb_to_xyz lin_rgb
    let xyz_normalized := xyz_im.divChan3 [0.95047, 1.0, 1.08883]
    let power := (xyz_normalized.map (fun v => max v 0.008856)).map
      (fun v => v ^ ((1 : ℝ) / 3.0))
    let scale := xyz_normalized.map (fun v => 7.787 * v + 4.0 / 29.0)
    let xyz_int := Tens.whereGt xyz_normalized 0.008856 power scale
    let x := xyz_int.sel3 0
    let y := xyz_int.sel3 1
    let z := xyz_int.sel3 2
    let lchan := y.map (fun v => (116.0 * v - 16.0) / 100)
    let achan := Tens.map2 x y (fun xv yv => (500.0 * (xv - yv) + 128) / 255)
    let bchan := Tens.map2 y z (fun yv zv => (200.0 * (yv - zv) + 128) / 255)
    pure (Tens.stack3m3 lchan achan bchan)

/-- Reads one sample out of the Lab pipeline's result (0 if it raised). -/
noncomputable def labData (t : Tens ℝ) (idx : List ℕ) : ℝ :=
  match linear_rgb_to_lab_norm t with
  | .ok o => o.data idx
  | .error _ => 0

/-- A concrete `(1, 3, 1, 1)` tensor with all samples `1/2`, used to
instantiate the universally quantified tensor theorems. -/
def tHalf : Tq := ⟨[1, 3, 1, 1], fun _ => 1 / 2⟩

/-- A one-cell heap holding `tHalf`, used to instantiate the heap theorems. -/
def storeOne : PtStore := ⟨[tHalf]⟩

/-- A 3-dimensional (batch-less) input with 3 channels on the `(-3)` axis. -/
noncomputable def luma3d : Tens ℝ := ⟨[3, 1, 1], fun _ => 0⟩

/-- A 4-dimensional input with 2 channels on the `(-3)` axis. -/
noncomputable def lumaBad2ch : Tens ℝ := ⟨[1, 2, 1, 1], fun _ => 0⟩

/-- A well-shaped 4-dimensional 3-channel input. -/
noncomputable def lumaOk4d : Tens ℝ := ⟨[1, 3, 1, 1], fun _ => 0⟩

/-- A `(1, 1, 1, 1)` tensor with value `0.01`, which exercises both linear
branches of `rgb_to_luma` (gamma decode and CIE segment). -/
noncomputable def lumaSmallIn : Tens ℝ := ⟨[1, 1, 1, 1], fun _ => 1 / 100⟩

/-- Pure white as a `(1, 3, 1, 1)` linear-RGB tensor. -/
noncomputable def whiteT : Tens ℝ := ⟨[1, 3, 1, 1], fun _ => 1⟩

/-- Pure black as a `(1, 3, 1, 1)` linear-RGB tensor. -/
noncomputable def blackT : Tens ℝ := ⟨[1, 3, 1, 1], fun _ => 0⟩

/-!
Theorems.  Small list lemmas first, then one theorem per claim (with
witnesses and counterexamples where the claim's status calls for them).
-/

/-- Reading strictly inside the left part of an appended list ignores the
right part. -/
theorem listGetD_append_lt {α : Type} (l₁ l₂ : List α) (d : α) (n : ℕ)
    (h : n < l₁.length) : (l₁ ++ l₂).getD n d = l₁.getD n d := by
  induction l₁ generalizing n with
  | nil => simp at h
  | cons x xs ih =>
      cases n with
      | zero => rfl
      | succ m => simpa [List.getD] using ih m (by simpa using h)

/-- Writing one position of a list leaves reads at other positions
unchanged. -/
theorem listGetD_set_ne {α : Type} (l : List α) (i n : ℕ) (x : α) (d : α)
    (h : i ≠ n) : (l.set i x).getD n d = l.getD n d := by
  induction l generalizing i n with
  | nil => rfl
  | cons a as ih =>
      cases i with
      | zero =>
          cases n with
          | zero => exact absurd rfl h
          | succ m => rfl
      | succ j =>
          cases n with
          | zero => rfl
          | succ m => simpa [List.getD] using ih j m (fun hc => h (by rw [hc]))

/-- C1: the spec says `rgb2ycbcr` with `y_only=False` performs the BT.601
matrix multiply plus the offset vector `[16, 128, 128]`, sending pure red to
approximately `[81, 90, 240]`.  The code instead builds the Python list
`[*np.matmul(...), 16, 128, 128]`, so its own
`assert isinstance(out_img, np.ndarray)` fails: the call raises
`AssertionError` and never produces the 3-channel output.  The second
conjunct checks that the intended arithmetic (matmul rows plus the offset,
rounded) would indeed give `[81, 90, 240]`. -/
theorem rgb2ycbcr_full_red_asserts :
    rgb2ycbcr ⟨.uint8, [[255, 0, 0]]⟩ false = .error (.assertionError "") ∧
    (List.zipWith (· + ·)
        ((npMatmul [[(255 : ℚ) / 255, 0 / 255, 0 / 255]] rgb2ycbcrMat).getD 0 [])
        [16, 128, 128]).map npRound = [81, 90, 240] := by
  refine ⟨rfl, ?_⟩
  have hsum : List.zipWith (· + ·)
      ((npMatmul [[(255 : ℚ) / 255, 0 / 255, 0 / 255]] rgb2ycbcrMat).getD 0 [])
      [16, 128, 128] = [81481 / 1000, 90203 / 1000, 240] := by
    norm_num [npMatmul, dotQ, rgb2ycbcrMat, List.range_succ]
  have r1 : npRound (81481 / 1000) = 81 := by
    unfold npRound
    rw [(by norm_num : ⌊(81481 / 1000 : ℚ)⌋ = 81)]
    norm_num
  have r2 : npRound (90203 / 1000) = 90 := by
    unfold npRound
    rw [(by norm_num : ⌊(90203 / 1000 : ℚ)⌋ = 90)]
    norm_num
  have r3 : npRound 240 = 240 := by
    unfold npRound
    rw [(by norm_num : ⌊(240 : ℚ)⌋ = 240)]
    norm_num
  rw [hsum]
  simp [r1, r2, r3]

/-- C2: the claimed uint8 round trips `ycbcr2rgb ∘ rgb2ycbcr` and
`ycbcr2bgr ∘ bgr2ycbcr` cannot reproduce the input within ±1, because the
forward conversions with `y_only=False` raise `AssertionError` (the
`out_img` the source builds is a Python list, not an array): the round trip
raises instead of returning an image. -/
theorem ycbcr_roundtrip_asserts :
    (rgb2ycbcr ⟨.uint8, [[10, 20, 30]]⟩ false).bind ycbcr2rgb
      = .error (.assertionError "") ∧
    (bgr2ycbcr ⟨.uint8, [[10, 20, 30]]⟩ false).bind ycbcr2bgr
      = .error (.assertionError "") :=
  ⟨rfl, rfl⟩

/-- C3: the `y_only=True` path works (pure red gives the single-channel
`[[81]]`), but the claimed comparison against the first channel of the
`y_only=False` output is impossible: on every uint8 input the non-luma-only
path raises `AssertionError`, so no 3-channel output exists. -/
theorem rgb2ycbcr_y_only_vs_full :
    rgb2ycbcr ⟨.uint8, [[255, 0, 0]]⟩ true = .ok ⟨.uint8, [[81]]⟩ ∧
    ∀ d : List (List ℚ), rgb2ycbcr ⟨.uint8, d⟩ false = .error (.assertionError "") := by
  constructor
  · simp only [rgb2ycbcr, _convert_input_type_range, _convert_output_type_range, bind,
      Except.bind, dotQ, List.map, List.zipWith, List.sum]
    norm_num [astypeUint8, npRound]
  · intro d
    rfl

/-- C6: the range normalizers accept exactly the uint8 and float32 dtypes:
float32 input passes through unchanged, uint8 input is divided by 255; on
the output side the uint8 target rounds (and wraps into uint8) while the
float32 target divides by 255; any other dtype yields a `TypeError` naming
the offending dtype, with no output produced. -/
theorem convert_type_range_dispatch :
    (∀ d : List (List ℚ), _convert_input_type_range ⟨.float32, d⟩ = .ok ⟨.float32, d⟩) ∧
    (∀ d : List (List ℚ), _convert_input_type_range ⟨.uint8, d⟩
        = .ok ⟨.float32, d.map (fun px => px.map (fun x => x / 255))⟩) ∧
    (∀ (s : String) (d : List (List ℚ)), _convert_input_type_range ⟨.other s, d⟩
        = .error (.typeError
            ("The img type should be np.float32 or np.uint8, but got " ++ s))) ∧
    (∀ img : NpImage, (_convert_input_type_range img).isOk = true ↔
        img.dtype = .uint8 ∨ img.dtype = .float32) ∧
    (∀ d : List (List ℚ), _convert_output_type_range d .uint8
        = .ok ⟨.uint8, d.map (fun px => px.map astypeUint8)⟩) ∧
    (∀ d : List (List ℚ), _convert_output_type_range d .float32
        = .ok ⟨.float32, d.map (fun px => px.map (fun x => x / 255))⟩) ∧
    (∀ (s : String) (d : List (List ℚ)), _convert_output_type_range d (.other s)
        = .error (.typeError
            ("The dst_type should be np.float32 or np.uint8, but got " ++ s))) ∧
    (∀ (d : List (List ℚ)) (dt : NpDType),
        (_convert_output_type_range d dt).isOk = true ↔ dt = .uint8 ∨ dt = .float32) := by
  refine ⟨fun d => rfl, fun d => rfl, fun s d => rfl, ?_, fun d => rfl, fun d => rfl,
    fun s d => rfl, ?_⟩
  · intro img
    rcases img with ⟨dt, d⟩
    cases dt <;> simp [_convert_input_type_range, Except.isOk, Except.toBool]
  · intro d dt
    cases dt <;> simp [_convert_output_type_range, Except.isOk, Except.toBool]

theorem exceptBind_ok {ε α β : Type} (x : α) (f : α → Except ε β) :
    (Except.ok x : Except ε α) >>= f = f x := rfl

theorem exceptBind_error {ε α β : Type} (e : ε) (f : α → Except ε β) :
    (Except.error e : Except ε α) >>= f = Except.error e := rfl

theorem exceptMap_ok {ε α β : Type} (x : α) (f : α → β) :
    (Except.ok x : Except ε α).map f = Except.ok (f x) := rfl

theorem exceptMap_error {ε α β : Type} (e : ε) (f : α → β) :
    (Except.error e : Except ε α).map f = Except.error e := rfl

/-- A 4-dimensional input always passes the forward tensor conversion:
`rgb2ycbcr_pt` only raises from the permutes, whose arity check the input
satisfies. -/
theorem rgb2ycbcr_pt_ok_of_4d (t : Tq) (h : t.shape.length = 4) :
    ∃ u : Tq, rgb2ycbcr_pt t = .ok u := by
  simp only [rgb2ycbcr_pt, Tens.permute0231, Tens.permute0312, Tens.matLast, h,
    if_true, Bool.false_eq_true, if_false, List.length_append, List.length_dropLast,
    List.dropLast_concat, exceptBind_ok]
  exact ⟨_, rfl⟩

/-- C5: the inverse dispatcher fails with the documented assertion message
exactly when the `y` (resp. `uv`) tag comes without a reference image, and
raises NotImplementedError for `gray`; the forward dispatcher raises
NotImplementedError for `gray` and `uv`. -/
theorem pixelformat_dispatch_errors :
    ∀ (s : PtStore) (a r : ℕ),
      pixelformat2rgb_pt s a none .y
          = .error (.assertionError "gt is required for luma pixel format") ∧
      pixelformat2rgb_pt s a none .uv
          = .error (.assertionError "gt is required for chroma pixel format") ∧
      (∀ oref : Option ℕ,
        pixelformat2rgb_pt s a oref .gray = .error (.notImplementedError "")) ∧
      rgb2pixelformat_pt s a .gray = .error (.notImplementedError "") ∧
      rgb2pixelformat_pt s a .uv = .error (.notImplementedError "") ∧
      ((s.read r).shape.length = 4 →
        (pixelformat2rgb_pt s a (some r) .y).isOk = true) := by
  intro s a r
  refine ⟨rfl, rfl, fun _ => rfl, rfl, rfl, fun h => ?_⟩
  obtain ⟨u, hu⟩ := rgb2ycbcr_pt_ok_of_4d _ h
  simp only [pixelformat2rgb_pt]
  rw [hu]
  rfl

/-- Witness for C5: a concrete one-cell heap with a `(1, 3, 1, 1)` reference
satisfies the reference-supplied precondition, and the `y` inverse
conversion then succeeds. -/
theorem pixelformat_dispatch_errors_witness :
    (pixelformat2rgb_pt storeOne 0 (some 0) .y).isOk = true :=
  ((pixelformat_dispatch_errors storeOne 0 0).2.2.2.2.2) rfl

/-- C7: on a `(n, 3, h, w)` tensor with samples in `[0, 1]`, the tensor-side
inverse conversion keeps the shape and computes each output channel by the
closed-form linear equations with coefficients 1.164, 1.596, 0.392, 0.813
and 2.017 applied to the 255-scaled, centered Y/Cb/Cr samples, divided by
255 at the end. -/
theorem ycbcr2rgb_pt_formula :
    ∀ (t : Tq) (n h w : ℕ), t.shape = [n, 3, h, w] →
      (∀ idx, 0 ≤ t.data idx ∧ t.data idx ≤ 1) →
      (ycbcr2rgb_pt t).shape = [n, 3, h, w] ∧
      ∀ b i j,
        (ycbcr2rgb_pt t).data [b, 0, i, j]
          = (1.164 * (t.data [b, 0, i, j] * 255 - 16)
              + 1.596 * (t.data [b, 2, i, j] * 255 - 128)) / 255 ∧
        (ycbcr2rgb_pt t).data [b, 1, i, j]
          = (1.164 * (t.data [b, 0, i, j] * 255 - 16)
              - 0.392 * (t.data [b, 1, i, j] * 255 - 128)
              - 0.813 * (t.data [b, 2, i, j] * 255 - 128)) / 255 ∧
        (ycbcr2rgb_pt t).data [b, 2, i, j]
          = (1.164 * (t.data [b, 0, i, j] * 255 - 16)
              + 2.017 * (t.data [b, 1, i, j] * 255 - 128)) / 255 := by
  intro t n h w hsh _hrange
  obtain ⟨sh, f⟩ := t
  simp only at hsh
  subst hsh
  refine ⟨?_, ?_⟩
  · simp [ycbcr2rgb_pt, Tens.map, Tens.map2, Tens.sliceCh, Tens.cat3Ch, List.set, List.getD]
  · intro b i j
    refine ⟨?_, ?_, ?_⟩ <;>
      · simp [ycbcr2rgb_pt, Tens.map, Tens.map2, Tens.sliceCh, Tens.cat3Ch, List.set,
          List.getD]
        ring

/-- Witness for C7 at the concrete all-`1/2` tensor. -/
theorem ycbcr2rgb_pt_formula_witness :
    (ycbcr2rgb_pt tHalf).shape = [1, 3, 1, 1] ∧
    (ycbcr2rgb_pt tHalf).data [0, 0, 0, 0]
      = (1.164 * (tHalf.data [0, 0, 0, 0] * 255 - 16)
          + 1.596 * (tHalf.data [0, 2, 0, 0] * 255 - 128)) / 255 := by
  obtain ⟨h1, h2⟩ :=
    ycbcr2rgb_pt_formula tHalf 1 1 1 rfl (fun idx => by constructor <;> norm_num [tHalf])
  exact ⟨h1, (h2 0 0 0).1⟩

/-- C10: the inverse dispatcher never changes the heap cell holding the
caller's reference tensor: whatever the pixel format and whatever the run's
outcome, the reference address reads the same tensor after the call as
before (the in-place slice assignment only hits the freshly allocated YCbCr
intermediate). -/
theorem pixelformat2rgb_pt_preserves_ref :
    ∀ (s : PtStore) (aimg aref : ℕ) (pf : PixelFormat), aref < s.cells.length →
      (pixelformat2rgb_pt s aimg (some aref) pf).map (fun p => p.1.read aref)
        = (pixelformat2rgb_pt s aimg (some aref) pf).map (fun _ => s.read aref) := by
  intro s aimg aref pf h
  cases pf with
  | rgb => rfl
  | gray => rfl
  | yuv444 =>
      simp only [pixelformat2rgb_pt, PtStore.alloc, exceptMap_ok, PtStore.read,
        Except.ok.injEq]
      rw [listGetD_append_lt _ _ _ _ h]
  | y =>
      cases hx : rgb2ycbcr_pt (s.read aref) with
      | error e =>
          simp only [pixelformat2rgb_pt]
          rw [hx]
          rfl
      | ok yuv =>
          simp only [pixelformat2rgb_pt]
          rw [hx]
          simp only [exceptBind_ok, PtStore.alloc, PtStore.write, PtStore.read,
            exceptMap_ok, Except.ok.injEq]
          rw [listGetD_append_lt _ _ _ _
              (by simpa using Nat.lt_succ_of_lt h),
            listGetD_set_ne _ _ _ _ _ (Nat.ne_of_gt h),
            listGetD_append_lt _ _ _ _ h]
  | uv =>
      cases hx : rgb2ycbcr_pt (s.read aref) with
      | error e =>
          simp only [pixelformat2rgb_pt]
          rw [hx]
          rfl
      | ok yuv =>
          simp only [pixelformat2rgb_pt]
          rw [hx]
          simp only [exceptBind_ok, PtStore.alloc, PtStore.write, PtStore.read,
            exceptMap_ok, Except.ok.injEq]
          rw [listGetD_append_lt _ _ _ _
              (by simpa using Nat.lt_succ_of_lt h),
            listGetD_set_ne _ _ _ _ _ (Nat.ne_of_gt h),
            listGetD_append_lt _ _ _ _ h]


/-- C4 (against the code): on the `(1, 1, 1, 1)` tensor with value `0.01`,
both selected branches are the linear ones (`0.01 ≤ 0.04045`, and the decoded
`0.01/12.92 = 1/1292` is below `216/24389`), yet `rgb_to_luma` returns
`(1/1292)² · 24389/27 / 100`: the first piecewise branch multiplies the value
by `value * (24389/27)` — a quadratic — instead of scaling the value by the
constant `24389/27` as CIE L* (and the claim) prescribe. -/
theorem rgb_to_luma_linear_branch_squares :
    (rgb_to_luma lumaSmallIn).map (fun o => o.data [0, 0, 0, 0])
      = .ok (24389 / 4507012800) ∧
    (24389 / 4507012800 : ℝ) ≠ ((1 / 1292 : ℝ) * (24389 / 27)) / 100 := by
  constructor
  · have e : (rgb_to_luma lumaSmallIn).map (fun o => o.data [0, 0, 0, 0])
        = .ok (min (max ((if
            (if min (max (1 / 100 : ℝ) 1e-12) 1 ≤ 0.04045 then
              min (max (1 / 100 : ℝ) 1e-12) 1 / 12.92
            else ((min (max (1 / 100 : ℝ) 1e-12) 1 + 0.055) / 1.055) ^ (2.4 : ℝ))
              ≤ (216 / 24389 : ℝ) then
            (if min (max (1 / 100 : ℝ) 1e-12) 1 ≤ 0.04045 then
              min (max (1 / 100 : ℝ) 1e-12) 1 / 12.92
            else ((min (max (1 / 100 : ℝ) 1e-12) 1 + 0.055) / 1.055) ^ (2.4 : ℝ))
              * ((if min (max (1 / 100 : ℝ) 1e-12) 1 ≤ 0.04045 then
                  min (max (1 / 100 : ℝ) 1e-12) 1 / 12.92
                else ((min (max (1 / 100 : ℝ) 1e-12) 1 + 0.055) / 1.055) ^ (2.4 : ℝ))
                * (24389 / 27))
          else
            (if min (max (1 / 100 : ℝ) 1e-12) 1 ≤ 0.04045 then
              min (max (1 / 100 : ℝ) 1e-12) 1 / 12.92
            else ((min (max (1 / 100 : ℝ) 1e-12) 1 + 0.055) / 1.055) ^ (2.4 : ℝ))
              ^ ((1 : ℝ) / 3) * 116 - 16) / 100) 0) 1) := rfl
    have hz : min (max ((1 : ℝ) / 100) 1e-12) 1 = 1 / 100 := by norm_num
    rw [e, hz, if_pos (by norm_num : (1 / 100 : ℝ) ≤ 0.04045)]
    have hy : ((1 : ℝ) / 100) / 12.92 = 1 / 1292 := by norm_num
    rw [hy, if_pos (by norm_num : (1 / 1292 : ℝ) ≤ 216 / 24389)]
    norm_num
  · norm_num

/-- Witness for C10: running the `y` inverse conversion on a concrete
one-cell heap (reference at address 0) leaves the reference cell's value
observably unchanged. -/
theorem pixelformat2rgb_pt_preserves_ref_witness :
    (pixelformat2rgb_pt storeOne 0 (some 0) .y).map (fun p => p.1.read 0)
      = (pixelformat2rgb_pt storeOne 0 (some 0) .y).map (fun _ => storeOne.read 0) :=
  pixelformat2rgb_pt_preserves_ref storeOne 0 0 .y (by decide)

/-- C8: the Lab pipeline sends pure white `(1, 1, 1)` to normalized
`L = 1` exactly, with the `a` and `b` channels within `10⁻⁴` of the neutral
gray point `128/255`, and sends pure black `(0, 0, 0)` to `L = 0` exactly. -/
theorem lab_white_black_sanity :
    labData whiteT [0, 0, 0, 0] = 1 ∧
    |labData whiteT [0, 1, 0, 0] - 128 / 255| ≤ 1 / 10000 ∧
    |labData whiteT [0, 2, 0, 0] - 128 / 255| ≤ 1 / 10000 ∧
    labData blackT [0, 0, 0, 0] = 0 := by
  have hyn : ((0.212671 * 1 + 0.715160 * 1 + 0.072169 * 1 : ℝ)) / 1.0 = 1 := by norm_num
  have hxn : ((0.412453 * 1 + 0.357580 * 1 + 0.180423 * 1 : ℝ)) / 0.95047
      = 475228 / 475235 := by norm_num
  have hzn : ((0.019334 * 1 + 0.119193 * 1 + 0.950227 * 1 : ℝ)) / 1.08883
      = 544377 / 544415 := by norm_num
  refine ⟨?_, ?_, ?_, ?_⟩
  · have e0 : labData whiteT [0, 0, 0, 0]
        = (116.0 * (if (0.008856 : ℝ) < (0.212671 * 1 + 0.715160 * 1 + 0.072169 * 1) / 1.0 then
            (max ((0.212671 * 1 + 0.715160 * 1 + 0.072169 * 1) / 1.0) 0.008856) ^ ((1 : ℝ) / 3.0)
          else 7.787 * ((0.212671 * 1 + 0.715160 * 1 + 0.072169 * 1) / 1.0) + 4.0 / 29.0)
          - 16.0) / 100 := rfl
    rw [e0, hyn, if_pos (by norm_num : (0.008856 : ℝ) < 1),
      max_eq_left (by norm_num : (0.008856 : ℝ) ≤ 1), Real.one_rpow]
    norm_num
  · have e1 : labData whiteT [0, 1, 0, 0]
        = (500.0 * ((if (0.008856 : ℝ) < (0.412453 * 1 + 0.357580 * 1 + 0.180423 * 1) / 0.95047 then
              (max ((0.412453 * 1 + 0.357580 * 1 + 0.180423 * 1) / 0.95047) 0.008856) ^ ((1 : ℝ) / 3.0)
            else 7.787 * ((0.412453 * 1 + 0.357580 * 1 + 0.180423 * 1) / 0.95047) + 4.0 / 29.0)
          - (if (0.008856 : ℝ) < (0.212671 * 1 + 0.715160 * 1 + 0.072169 * 1) / 1.0 then
              (max ((0.212671 * 1 + 0.715160 * 1 + 0.072169 * 1) / 1.0) 0.008856) ^ ((1 : ℝ) / 3.0)
            else 7.787 * ((0.212671 * 1 + 0.715160 * 1 + 0.072169 * 1) / 1.0) + 4.0 / 29.0)) + 128) / 255 := rfl
    rw [e1, hyn, hxn, if_pos (by norm_num : (0.008856 : ℝ) < 475228 / 475235),
      if_pos (by norm_num : (0.008856 : ℝ) < 1),
      max_eq_left (by norm_num : (0.008856 : ℝ) ≤ 475228 / 475235),
      max_eq_left (by norm_num : (0.008856 : ℝ) ≤ 1), Real.one_rpow]
    have h0 : (0 : ℝ) < 475228 / 475235 := by norm_num
    have hle : (475228 / 475235 : ℝ) ≤ 1 := by norm_num
    have h1 : (475228 / 475235 : ℝ) ^ ((1 : ℝ) / 3.0) ≤ 1 :=
      Real.rpow_le_one h0.le hle (by norm_num)
    have h2 : (475228 / 475235 : ℝ) ≤ (475228 / 475235 : ℝ) ^ ((1 : ℝ) / 3.0) := by
      have h3 := Real.rpow_le_rpow_of_exponent_ge h0 hle
        (by norm_num : (1 : ℝ) / 3.0 ≤ 1)
      rwa [Real.rpow_one] at h3
    rw [abs_le]
    constructor <;> nlinarith [h1, h2]
  · have e2 : labData whiteT [0, 2, 0, 0]
        = (200.0 * ((if (0.008856 : ℝ) < (0.212671 * 1 + 0.715160 * 1 + 0.072169 * 1) / 1.0 then
              (max ((0.212671 * 1 + 0.715160 * 1 + 0.072169 * 1) / 1.0) 0.008856) ^ ((1 : ℝ) / 3.0)
            else 7.787 * ((0.212671 * 1 + 0.715160 * 1 + 0.072169 * 1) / 1.0) + 4.0 / 29.0)
          - (if (0.008856 : ℝ) < (0.019334 * 1 + 0.119193 * 1 + 0.950227 * 1) / 1.08883 then
              (max ((0.019334 * 1 + 0.119193 * 1 + 0.950227 * 1) / 1.08883) 0.008856) ^ ((1 : ℝ) / 3.0)
            else 7.787 * ((0.019334 * 1 + 0.119193 * 1 + 0.950227 * 1) / 1.08883) + 4.0 / 29.0)) + 128) / 255 := rfl
    rw [e2, hyn, hzn, if_pos (by norm_num : (0.008856 : ℝ) < 544377 / 544415),
      if_pos (by norm_num : (0.008856 : ℝ) < 1),
      max_eq_left (by norm_num : (0.008856 : ℝ) ≤ 544377 / 544415),
      max_eq_left (by norm_num : (0.008856 : ℝ) ≤ 1), Real.one_rpow]
    have h0 : (0 : ℝ) < 544377 / 544415 := by norm_num
    have hle : (544377 / 544415 : ℝ) ≤ 1 := by norm_num
    have h1 : (544377 / 544415 : ℝ) ^ ((1 : ℝ) / 3.0) ≤ 1 :=
      Real.rpow_le_one h0.le hle (by norm_num)
    have h2 : (544377 / 544415 : ℝ) ≤ (544377 / 544415 : ℝ) ^ ((1 : ℝ) / 3.0) := by
      have h3 := Real.rpow_le_rpow_of_exponent_ge h0 hle
        (by norm_num : (1 : ℝ) / 3.0 ≤ 1)
      rwa [Real.rpow_one] at h3
    rw [abs_le]
    constructor <;> nlinarith [h1, h2]
  · have e3 : labData blackT [0, 0, 0, 0]
        = (116.0 * (if (0.008856 : ℝ) < (0.212671 * 0 + 0.715160 * 0 + 0.072169 * 0) / 1.0 then
            (max ((0.212671 * 0 + 0.715160 * 0 + 0.072169 * 0) / 1.0) 0.008856) ^ ((1 : ℝ) / 3.0)
          else 7.787 * ((0.212671 * 0 + 0.715160 * 0 + 0.072169 * 0) / 1.0) + 4.0 / 29.0)
          - 16.0) / 100 := rfl
    have hz : ((0.212671 * 0 + 0.715160 * 0 + 0.072169 * 0 : ℝ)) / 1.0 = 0 := by norm_num
    rw [e3, hz, if_neg (by norm_num : ¬((0.008856 : ℝ) < 0))]
    norm_num

/-- C9 counterexample: a 3-dimensional input whose `(-3)` axis has 3
channels passes the shape precondition but then crashes in
`permute(0, 2, 3, 1)` (torch requires a full 4-axis permutation), so
`rgb_to_luma` does not succeed on every 1- or 3-channel input. -/
theorem rgb_to_luma_3d_raises :
    rgb_to_luma luma3d
      = .error (.runtimeError "number of dims don't match in permute") := rfl

/-- C9 (amended to 4-dimensional inputs for `rgb_to_luma`): both validators
raise their documented shape error whenever the `(-3)` axis has 2 channels;
`rgb_to_luma` succeeds on every 4-dimensional input with 1 or 3 channels on
that axis, and `rgb_to_linear_rgb` succeeds on every at-least-3-dimensional
input with 3 channels there. -/
theorem luma_linear_shape_checks :
    (∀ t : Tens ℝ, 3 ≤ t.shape.length → t.shape.getD (t.shape.length - 3) 0 = 2 →
      rgb_to_luma t = .error (.valueError
        ("Input size must have a shape of (*, 3, H, W) or (*, 1, H, W). Got "
          ++ toString t.shape))) ∧
    (∀ t : Tens ℝ, 3 ≤ t.shape.length → t.shape.getD (t.shape.length - 3) 0 = 2 →
      rgb_to_linear_rgb t = .error (.valueError
        ("Input size must have a shape of (*, 3, H, W).Got " ++ toString t.shape))) ∧
    (∀ t : Tens ℝ, t.shape.length = 4 →
      (t.shape.getD 1 0 = 1 ∨ t.shape.getD 1 0 = 3) →
      (rgb_to_luma t).isOk = true) ∧
    (∀ t : Tens ℝ, 3 ≤ t.shape.length → t.shape.getD (t.shape.length - 3) 0 = 3 →
      (rgb_to_linear_rgb t).isOk = true) := by
  refine ⟨?_, ?_, ?_, ?_⟩
  · intro t h3 h2
    have hcond : t.shape.length < 3 ∨
        (t.shape.getD (t.shape.length - 3) 0 ≠ 3 ∧
          t.shape.getD (t.shape.length - 3) 0 ≠ 1) :=
      Or.inr ⟨by rw [h2]; decide, by rw [h2]; decide⟩
    unfold rgb_to_luma
    rw [if_pos hcond]
  · intro t h3 h2
    have hcond : t.shape.length < 3 ∨ t.shape.getD (t.shape.length - 3) 0 ≠ 3 :=
      Or.inr (by rw [h2]; decide)
    unfold rgb_to_linear_rgb
    rw [if_pos hcond]
  · intro t h4 hc
    have hcond : ¬ (t.shape.length < 3 ∨
        (t.shape.getD (t.shape.length - 3) 0 ≠ 3 ∧
          t.shape.getD (t.shape.length - 3) 0 ≠ 1)) := by
      push_neg
      refine ⟨by omega, fun hne3 => ?_⟩
      rcases hc with hc | hc
      · rw [h4]
        exact hc
      · exact absurd
          (show t.shape.getD (t.shape.length - 3) 0 = 3 by rw [h4]; exact hc) hne3
    have hperm : t.permute0231 = Except.ok
        (⟨[t.shape.getD 0 0, t.shape.getD 2 0, t.shape.getD 3 0, t.shape.getD 1 0],
          fun idx => t.data [idx.getD 0 0, idx.getD 3 0, idx.getD 1 0, idx.getD 2 0]⟩
          : Tens ℝ) := by
      unfold Tens.permute0231
      rw [if_pos h4]
    unfold rgb_to_luma
    rw [if_neg hcond, hperm]
    rfl
  · intro t h3 hc
    have hcond : ¬ (t.shape.length < 3 ∨ t.shape.getD (t.shape.length - 3) 0 ≠ 3) := by
      push_neg
      exact ⟨h3, hc⟩
    unfold rgb_to_linear_rgb
    rw [if_neg hcond]
    rfl

/-- Witness for C9: the 2-channel `(1, 2, 1, 1)` input raises the shape
error in both validators, and the 4-dimensional 3-channel input passes
both. -/
theorem luma_linear_shape_checks_witness :
    rgb_to_luma lumaBad2ch = .error (.valueError
      ("Input size must have a shape of (*, 3, H, W) or (*, 1, H, W). Got "
        ++ toString lumaBad2ch.shape)) ∧
    rgb_to_linear_rgb lumaBad2ch = .error (.valueError
      ("Input size must have a shape of (*, 3, H, W).Got "
        ++ toString lumaBad2ch.shape)) ∧
    (rgb_to_luma lumaOk4d).isOk = true ∧
    (rgb_to_linear_rgb lumaOk4d).isOk = true :=
  ⟨luma_linear_shape_checks.1 lumaBad2ch (by decide) rfl,
   luma_linear_shape_checks.2.1 lumaBad2ch (by decide) rfl,
   luma_linear_shape_checks.2.2.1 lumaOk4d rfl (Or.inr rfl),
   luma_linear_shape_checks.2.2.2 lumaOk4d (by decide) rfl⟩
